import Mathlib

/-!
# Verification of the r2midi client cache layer and sync controller

Shallow embedding of `midi_patch_client/api_client.py` (class `CachedApiClient`):
the TTL cache, prefix invalidation, the retry helper `_retry_request`, the
read-query wrappers, `run_git_sync`, and `run_git_remote_sync`.

Modelling conventions:
* `time.time()` is an explicit `Int` parameter (`now`); the cache is an
  association list `key -> (timestamp, value)` mirroring the Python dict
  `self._cache` under lookup semantics.
* Exceptions become explicit outcome values.  A call to the `fetch` closure is
  an oracle `Nat -> FetchOutcome` giving the outcome of each attempt.  The
  `httpx` exception hierarchy is modelled as in the library: both transport
  errors (`httpx.ConnectError`, `httpx.TimeoutException`, ... — no response
  obtained) and protocol errors (`httpx.HTTPStatusError` from
  `raise_for_status` — response obtained but rejected) are subclasses of
  `httpx.HTTPError`, while e.g. JSON decoding failures are not.
* File-system and git effects in `run_git_remote_sync` are an explicit
  environment of step outcomes; the process working directory is threaded as
  state.  `os.chdir` to a directory that the function has just verified (or
  that was the working directory at entry) is modelled as succeeding.
-/

/-- The client cache `self._cache`: a map from string keys to
`(timestamp, data)` pairs, modelled as an association list. -/
def Cache (α : Type) : Type := List (String × (Int × α))

/-- Python dict lookup `self._cache[key]` / `key in self._cache`. -/
def cacheLookup {α : Type} (c : Cache α) (key : String) : Option (Int × α) :=
  match c with
  | [] => none
  | kv :: rest => if kv.1 == key then some kv.2 else cacheLookup rest key

/-- `CachedApiClient._is_cache_valid`: the entry exists and
`time.time() - timestamp < self._cache_timeout`. -/
def is_cache_valid {α : Type} (c : Cache α) (now ttl : Int) (key : String) : Bool :=
  match cacheLookup c key with
  | none => false
  | some tv => decide (now - tv.1 < ttl)

/-- `CachedApiClient._get_from_cache`: return the stored data if the entry is
still valid, otherwise a miss (`None`). -/
def get_from_cache {α : Type} (c : Cache α) (now ttl : Int) (key : String) : Option α :=
  if is_cache_valid c now ttl key then
    match cacheLookup c key with
    | some tv => some tv.2
    | none => none
  else none

/-- `CachedApiClient._set_cache`: `self._cache[key] = (time.time(), data)`
(dict assignment replaces any previous binding of the key). -/
def set_cache {α : Type} (c : Cache α) (now : Int) (key : String) (data : α) : Cache α :=
  (key, (now, data)) :: c.filter (fun kv => kv.1 != key)

/-- `CachedApiClient.clear_cache`: `self._cache.clear()`. -/
def clear_cache {α : Type} (_ : Cache α) : Cache α := []

/-- Python `str.startswith`, computed on the underlying character lists. -/
def startswith (s p : String) : Bool := p.data.isPrefixOf s.data

/-- `CachedApiClient.clear_cache_for_prefix` (named `clear_cache_for_pfx`
here): delete every entry whose key starts with the given string `p`. -/
def clear_cache_for_pfx {α : Type} (c : Cache α) (p : String) : Cache α :=
  c.filter (fun kv => !(startswith kv.1 p))

/-- Outcome of one attempt of the function passed to `_retry_request`.
`transportError` and `statusError` are both `httpx.HTTPError` subclasses
(network/timeout failure with no response, and `raise_for_status` rejection
of an obtained response, respectively); `otherError` is any non-`httpx`
exception (e.g. `response.json()` failing to decode). -/
inductive FetchOutcome (α : Type) where
  | ok (v : α)
  | transportError (msg : String)
  | statusError (msg : String)
  | otherError (msg : String)
deriving DecidableEq

/-- An exception propagating out of `_retry_request`. -/
inductive Exn where
  | transportError (msg : String)
  | statusError (msg : String)
  | otherError (msg : String)
deriving DecidableEq

/-- Whether an exception is an instance of `httpx.HTTPError` (and hence is
caught by the wrappers' `except httpx.HTTPError` clauses). -/
def Exn.isHttpError : Exn → Bool
  | .transportError _ => true
  | .statusError _ => true
  | .otherError _ => false

/-- The loop of `CachedApiClient._retry_request`, from a given `attempt`
index with `remaining = max_retries - attempt` iterations left.  The first
`except httpx.HTTPError` clause re-raises immediately (this catches both
transport and status errors, per the `httpx` hierarchy); the second clause
(`except Exception`) sleeps `delay * 2 ** attempt` and retries while
`attempt < max_retries - 1`, else re-raises.  Falling off the loop returns
Python `None`, modelled as `Except.ok none`.  The second component collects
the sleep durations, in order. -/
def retryAux {α : Type} (func : Nat → FetchOutcome α) (delay : Int) :
    Nat → Nat → Except Exn (Option α) × List Int
  | _, 0 => (Except.ok none, [])
  | attempt, r + 1 =>
    match func attempt with
    | FetchOutcome.ok v => (Except.ok (some v), [])
    | FetchOutcome.transportError s => (Except.error (Exn.transportError s), [])
    | FetchOutcome.statusError s => (Except.error (Exn.statusError s), [])
    | FetchOutcome.otherError s =>
      if r = 0 then (Except.error (Exn.otherError s), [])
      else
        ((retryAux func delay (attempt + 1) r).1,
          delay * 2 ^ attempt :: (retryAux func delay (attempt + 1) r).2)

/-- `CachedApiClient._retry_request(func, max_retries, delay)`; the call
sites use `max_retries = 3` (default) and `delay = 1.0`. -/
def retry_request {α : Type} (func : Nat → FetchOutcome α) (max_retries : Nat)
    (delay : Int) : Except Exn (Option α) × List Int :=
  retryAux func delay 0 max_retries

example : retry_request (fun _ => FetchOutcome.ok (3 : Nat)) 3 1 =
    (Except.ok (some 3), []) := rfl

example : retry_request (fun k => if k = 0 then FetchOutcome.otherError "x"
      else FetchOutcome.ok (3 : Nat)) 3 1 = (Except.ok (some 3), [1]) := rfl

example : retry_request (fun _ => (FetchOutcome.otherError "x" : FetchOutcome Nat)) 3 1 =
    (Except.error (Exn.otherError "x"), [1, 2]) := rfl

example : retry_request (fun _ => (FetchOutcome.transportError "t" : FetchOutcome Nat)) 3 1 =
    (Except.error (Exn.transportError "t"), []) := rfl

/-- Python truthiness of an optional-string argument (`None` and `""` are
falsy). -/
def pyTruthy : Option String → Bool
  | none => false
  | some s => !(s == "")

/-- Python f-string rendering of an optional string (`str(None) = "None"`). -/
def optStr : Option String → String
  | none => "None"
  | some s => s

/-- Python `community_folder or 'default'`. -/
def orDefaultStr : Option String → String
  | none => "default"
  | some s => if s == "" then "default" else s

/-- The shared fetch-and-cache path of the read-query wrappers: run
`_retry_request(fetch)` (with the default `max_retries=3`, `delay=1.0`),
cache and return the data on success; on an `httpx.HTTPError` return the
wrapper's safe default `dflt` with the cache untouched (`except
httpx.HTTPError: ... return <default>`); any other exception propagates.
The `Except.ok none` branch is unreachable for `max_retries = 3` (see
`retry_request_three_ne_none`); Python would raise an uncaught `TypeError`
on `len(None)` there, modelled as a propagating non-`httpx` exception. -/
def query_fetch {α : Type} (c : Cache α) (now : Int) (cache_key : String)
    (dflt : α) (fetch : Nat → FetchOutcome α) : Except Exn (α × Cache α) :=
  match (retry_request fetch 3 1).1 with
  | Except.ok (some data) => Except.ok (data, set_cache c now cache_key data)
  | Except.ok none => Except.error (Exn.otherError "TypeError")
  | Except.error e =>
    if e.isHttpError then Except.ok (dflt, c) else Except.error e

/-- The shared shape of the read-query wrappers: unless `force_refresh` is
set, try the cache first and return a hit immediately; otherwise fetch (with
retry), cache, and return, with `dflt` as the safe default on an
`httpx.HTTPError`. -/
def cached_query {α : Type} (c : Cache α) (now ttl : Int) (force_refresh : Bool)
    (cache_key : String) (dflt : α) (fetch : Nat → FetchOutcome α) :
    Except Exn (α × Cache α) :=
  if force_refresh = false then
    match get_from_cache c now ttl cache_key with
    | some cached_data => Except.ok (cached_data, c)
    | none => query_fetch c now cache_key dflt fetch
  else query_fetch c now cache_key dflt fetch

/-- `CachedApiClient.get_manufacturers`: cache key `"manufacturers"`, safe
default `[]`. -/
def get_manufacturers (c : Cache (List String)) (now ttl : Int)
    (force_refresh : Bool) (fetch : Nat → FetchOutcome (List String)) :
    Except Exn (List String × Cache (List String)) :=
  cached_query c now ttl force_refresh "manufacturers" [] fetch

/-- `CachedApiClient.get_devices_by_manufacturer`: cache key
`f"devices_by_manufacturer_{manufacturer}"`, safe default `[]`. -/
def get_devices_by_manufacturer (c : Cache (List String)) (now ttl : Int)
    (manufacturer : String) (force_refresh : Bool)
    (fetch : Nat → FetchOutcome (List String)) :
    Except Exn (List String × Cache (List String)) :=
  cached_query c now ttl force_refresh
    ("devices_by_manufacturer_" ++ manufacturer) [] fetch

/-- `CachedApiClient.get_device_info`: cache key
`f"device_info_{manufacturer}"`, safe default `[]` (a list of device-info
dictionaries; the dictionary payload is the type parameter `α`). -/
def get_device_info {α : Type} (c : Cache (List α)) (now ttl : Int)
    (manufacturer : String) (force_refresh : Bool)
    (fetch : Nat → FetchOutcome (List α)) :
    Except Exn (List α × Cache (List α)) :=
  cached_query c now ttl force_refresh ("device_info_" ++ manufacturer) [] fetch

/-- `CachedApiClient.get_community_folders`: cache key
`f"community_folders_{device_name}"`, safe default `[]`. -/
def get_community_folders (c : Cache (List String)) (now ttl : Int)
    (device_name : String) (force_refresh : Bool)
    (fetch : Nat → FetchOutcome (List String)) :
    Except Exn (List String × Cache (List String)) :=
  cached_query c now ttl force_refresh
    ("community_folders_" ++ device_name) [] fetch

/-- `CachedApiClient.get_patches`: if `manufacturer` or `device_name` is
falsy, log a warning and return `[]` immediately (no cache access, no
request); otherwise cache key
`f"patches_{manufacturer}_{device_name}_{community_folder or 'default'}"`,
safe default `[]`.  The `Patch(**p)` conversion of each fetched element is
the type parameter `α`. -/
def get_patches {α : Type} (c : Cache (List α)) (now ttl : Int)
    (device_name community_folder manufacturer : Option String)
    (force_refresh : Bool) (fetch : Nat → FetchOutcome (List α)) :
    Except Exn (List α × Cache (List α)) :=
  if (pyTruthy manufacturer && pyTruthy device_name) = false then
    Except.ok ([], c)
  else
    cached_query c now ttl force_refresh
      ("patches_" ++ optStr manufacturer ++ "_" ++ optStr device_name ++ "_" ++
        orDefaultStr community_folder) [] fetch

/-- `CachedApiClient.get_midi_ports`: cache key `"midi_ports"`, safe default
`{"in": [], "out": []}` (modelled as an association list). -/
def get_midi_ports (c : Cache (List (String × List String))) (now ttl : Int)
    (force_refresh : Bool)
    (fetch : Nat → FetchOutcome (List (String × List String))) :
    Except Exn (List (String × List String) × Cache (List (String × List String))) :=
  cached_query c now ttl force_refresh "midi_ports"
    [("in", []), ("out", [])] fetch

/-- `CachedApiClient.get_collections`: cache key
`f"collections_{manufacturer}_{device}"`; on `httpx.HTTPError` the wrapper
returns `["default"]` ("Return default collection on error"). -/
def get_collections (c : Cache (List String)) (now ttl : Int)
    (manufacturer device : String) (force_refresh : Bool)
    (fetch : Nat → FetchOutcome (List String)) :
    Except Exn (List String × Cache (List String)) :=
  cached_query c now ttl force_refresh
    ("collections_" ++ manufacturer ++ "_" ++ device) ["default"] fetch

/-- The JSON body returned by the server for `GET /git/sync`, as accessed by
`run_git_sync` (`result.get("status")`, `result.get("message", default)`). -/
structure GitSyncResp where
  status : Option String
  message : Option String
deriving DecidableEq

/-- The message of an exception, `str(e)`. -/
def Exn.msg : Exn → String
  | .transportError s => s
  | .statusError s => s
  | .otherError s => s

/-- `CachedApiClient.run_git_sync`: call `GET /git/sync` through
`_retry_request`; on a `"success"` status clear the whole cache and return
`(True, message)`; on any other status return `(False, message)` with the
cache untouched; any exception (`except Exception`) yields
`(False, "Error calling git sync REST API: " + str(e))`, cache untouched.
Returns the `(success, message)` pair and the cache after the call. -/
def run_git_sync {α : Type} (c : Cache α)
    (fetch : Nat → FetchOutcome GitSyncResp) : (Bool × String) × Cache α :=
  match (retry_request fetch 3 1).1 with
  | Except.ok (some result) =>
    if result.status == some "success" then
      ((true, result.message.getD "Git sync completed successfully"), clear_cache c)
    else
      ((false, result.message.getD "Unknown error during git sync"), c)
  | Except.ok none =>
    ((false, "Error calling git sync REST API: TypeError"), c)
  | Except.error e =>
    ((false, "Error calling git sync REST API: " ++ e.msg), c)

example : run_git_sync ([("k", (0, 5))] : Cache Nat)
    (fun _ => FetchOutcome.ok ⟨some "success", some "done"⟩) =
    ((true, "done"), []) := rfl

example : run_git_sync ([("k", (0, 5))] : Cache Nat)
    (fun _ => FetchOutcome.ok ⟨some "error", none⟩) =
    ((false, "Unknown error during git sync"), [("k", (0, 5))]) := rfl

/-- Python `not s.strip()`: true iff stripping leading and trailing
whitespace leaves the empty string, i.e. iff `s` is all whitespace. -/
def stripEmpty (s : String) : Bool := s.data.all Char.isWhitespace

example : stripEmpty "" = true := rfl

example : stripEmpty " \n" = true := by decide

example : stripEmpty "M x.json" = false := rfl

/-- The outcome of one git/`GitPython` operation inside
`run_git_remote_sync`: normal output, a `GitCommandError` (with its
`stderr`), or any other exception (with its message). -/
inductive GitOut where
  | ok (out : String)
  | cmdError (stderr : String)
  | exn (msg : String)
deriving DecidableEq

/-- The environment `run_git_remote_sync` acts on: validity of the two
repositories, the file-system checks on the `midi-presets` directory, and the
outcome of each git command, in the order the function performs them. -/
structure GitEnv where
  parentRepoValid : Bool
  submoduleSync : GitOut
  submoduleUpdate : GitOut
  presetsExists : Bool
  presetsIsDir : Bool
  presetsReadable : Bool
  submoduleRepoValid : Bool
  preStatus : GitOut
  addAll : GitOut
  statusPorcelain : GitOut
  commitOut : GitOut
  pushOut : GitOut
  parentAdd : GitOut
deriving DecidableEq

/-- Observable result of a `run_git_remote_sync` call: the returned
`(success, message)` pair, the process working directory, whether the commit
and push commands were executed, and whether the client cache was cleared. -/
structure SyncRun where
  result : Bool × String
  cwd : String
  commitInvoked : Bool
  pushInvoked : Bool
  cacheCleared : Bool
deriving DecidableEq

/-- The body of `CachedApiClient.run_git_remote_sync` (everything inside the
outer `try` with its handlers, but before the `finally` block), started in
working directory `current_dir = os.getcwd()`.  `cwd` records the process
working directory at the moment the body returns.  Step order and messages
follow the source: open parent repo, `git submodule sync` and
`git submodule update --init --recursive` (failures caught by the outer
`except GitCommandError` / `except Exception` handlers), the three explicit
checks on `current_dir + "/midi-presets"`, `os.chdir` into it, open the
submodule repo, then the inner `try`: status, `git add .`,
`git status --porcelain` (empty output returns the no-changes success
without committing or pushing), `git commit -m "new patches"`, `git push`,
`os.chdir(current_dir)`, `git add midi-presets` in the parent, and
`self.clear_cache()` before the success return; inner failures are caught by
the inner `except GitCommandError` / `except Exception` handlers. -/
def run_git_remote_sync_body (env : GitEnv) (current_dir : String) : SyncRun :=
  if env.parentRepoValid = false then
    ⟨(false, "Not a valid git repository: " ++ current_dir), current_dir,
      false, false, false⟩
  else
    match env.submoduleSync with
    | GitOut.cmdError s =>
      ⟨(false, "Git submodule operation failed: " ++ s), current_dir,
        false, false, false⟩
    | GitOut.exn m =>
      ⟨(false, "Unexpected error in run_git_remote_sync: " ++ m), current_dir,
        false, false, false⟩
    | GitOut.ok _ =>
      match env.submoduleUpdate with
      | GitOut.cmdError s =>
        ⟨(false, "Git submodule operation failed: " ++ s), current_dir,
          false, false, false⟩
      | GitOut.exn m =>
        ⟨(false, "Unexpected error in run_git_remote_sync: " ++ m), current_dir,
          false, false, false⟩
      | GitOut.ok _ =>
        if env.presetsExists = false then
          ⟨(false, "Midi-presets directory not found at " ++ (current_dir ++ "/midi-presets") ++
              " even after submodule initialization"), current_dir,
            false, false, false⟩
        else if env.presetsIsDir = false then
          ⟨(false, "Path exists but is not a directory: " ++ (current_dir ++ "/midi-presets")),
            current_dir, false, false, false⟩
        else if env.presetsReadable = false then
          ⟨(false, "Permission denied when accessing directory: " ++
              (current_dir ++ "/midi-presets")), current_dir, false, false, false⟩
        else if env.submoduleRepoValid = false then
          ⟨(false, "Not a git repository: " ++ (current_dir ++ "/midi-presets")),
            (current_dir ++ "/midi-presets"), false, false, false⟩
        else
          match env.preStatus with
          | GitOut.cmdError s =>
            ⟨(false, "Git remote sync failed: " ++ s), (current_dir ++ "/midi-presets"),
              false, false, false⟩
          | GitOut.exn m =>
            ⟨(false, "Error running git remote sync: " ++ m), (current_dir ++ "/midi-presets"),
              false, false, false⟩
          | GitOut.ok _ =>
            match env.addAll with
            | GitOut.cmdError s =>
              ⟨(false, "Git remote sync failed: " ++ s), (current_dir ++ "/midi-presets"),
                false, false, false⟩
            | GitOut.exn m =>
              ⟨(false, "Error running git remote sync: " ++ m), (current_dir ++ "/midi-presets"),
                false, false, false⟩
            | GitOut.ok _ =>
              match env.statusPorcelain with
              | GitOut.cmdError s =>
                ⟨(false, "Git remote sync failed: " ++ s), (current_dir ++ "/midi-presets"),
                  false, false, false⟩
              | GitOut.exn m =>
                ⟨(false, "Error running git remote sync: " ++ m),
                  (current_dir ++ "/midi-presets"), false, false, false⟩
              | GitOut.ok status_output =>
                if stripEmpty status_output = true then
                  ⟨(true, "No changes to commit in midi-presets"),
                    (current_dir ++ "/midi-presets"), false, false, false⟩
                else
                  match env.commitOut with
                  | GitOut.cmdError s =>
                    ⟨(false, "Git remote sync failed: " ++ s), (current_dir ++ "/midi-presets"),
                      true, false, false⟩
                  | GitOut.exn m =>
                    ⟨(false, "Error running git remote sync: " ++ m),
                      (current_dir ++ "/midi-presets"), true, false, false⟩
                  | GitOut.ok _ =>
                    match env.pushOut with
                    | GitOut.cmdError s =>
                      ⟨(false, "Git remote sync failed: " ++ s),
                        (current_dir ++ "/midi-presets"), true, true, false⟩
                    | GitOut.exn m =>
                      ⟨(false, "Error running git remote sync: " ++ m),
                        (current_dir ++ "/midi-presets"), true, true, false⟩
                    | GitOut.ok _ =>
                      match env.parentAdd with
                      | GitOut.cmdError s =>
                        ⟨(false, "Git remote sync failed: " ++ s), current_dir,
                          true, true, false⟩
                      | GitOut.exn m =>
                        ⟨(false, "Error running git remote sync: " ++ m),
                          current_dir, true, true, false⟩
                      | GitOut.ok _ =>
                        ⟨(true, "Successfully added, committed, and pushed changes to midi-presets submodule"),
                          current_dir, true, true, true⟩

/-- `CachedApiClient.run_git_remote_sync`: the body above followed by the
`finally` block, which unconditionally executes `os.chdir(current_dir)`
(restoring the working directory recorded at entry) on every exit path. -/
def run_git_remote_sync (env : GitEnv) (current_dir : String) : SyncRun :=
  let r := run_git_remote_sync_body env current_dir
  { r with cwd := current_dir }

example :
    run_git_remote_sync
      ⟨true, GitOut.ok "", GitOut.ok "", true, true, true, true, GitOut.ok "",
        GitOut.ok "", GitOut.ok "", GitOut.ok "", GitOut.ok "", GitOut.ok ""⟩
      "/repo" =
    ⟨(true, "No changes to commit in midi-presets"), "/repo", false, false,
      false⟩ := rfl

example :
    run_git_remote_sync
      ⟨true, GitOut.ok "", GitOut.ok "", true, true, true, true, GitOut.ok "",
        GitOut.ok "", GitOut.ok "M x.json", GitOut.ok "", GitOut.ok "",
        GitOut.ok ""⟩ "/repo" =
    ⟨(true, "Successfully added, committed, and pushed changes to midi-presets submodule"),
      "/repo", true, true, true⟩ := rfl

/-- Modelled from the spec: the server-side `DeviceManager.run_git_sync`
(the Sync Controller's `pull()`) is not under `src/`; only its unit test
`test_sync_enabled` (`src/tests/unit/test_device_manager.py`) is.  That test
pins the behaviour modelled here: with `sync_enabled=False` the call returns
`(False, "Sync is disabled")`; with sync enabled it delegates to
`git_operations.git_sync` (mocked in the test as a `(success, message,
extra)` triple) and returns its `(success, message)`. -/
def DeviceManager.run_git_sync (sync_enabled : Bool)
    (git_sync_result : Bool × String × Option String) : Bool × String :=
  if sync_enabled = false then (false, "Sync is disabled")
  else (git_sync_result.1, git_sync_result.2.1)

example : DeviceManager.run_git_sync false (true, "Success", none) =
    (false, "Sync is disabled") := rfl

example : DeviceManager.run_git_sync true (true, "Success", none) =
    (true, "Success") := rfl

/-- Helper: one-step unfolding of the `retryAux` loop. -/
theorem retryAux_succ {α : Type} (func : Nat → FetchOutcome α) (delay : Int)
    (attempt r : Nat) :
    retryAux func delay attempt (r + 1) =
      match func attempt with
      | FetchOutcome.ok v => (Except.ok (some v), [])
      | FetchOutcome.transportError s => (Except.error (Exn.transportError s), [])
      | FetchOutcome.statusError s => (Except.error (Exn.statusError s), [])
      | FetchOutcome.otherError s =>
        if r = 0 then (Except.error (Exn.otherError s), [])
        else
          ((retryAux func delay (attempt + 1) r).1,
            delay * 2 ^ attempt :: (retryAux func delay (attempt + 1) r).2) := rfl

/-- Helper: if every attempt up to exhaustion raises a non-`httpx` exception,
the loop runs all its iterations, sleeping `delay * 2 ^ attempt` before each
retry, and re-raises the last exception. -/
theorem retryAux_allOther {α : Type} (func : Nat → FetchOutcome α) (delay : Int)
    (e : Nat → String) :
    ∀ (r j : Nat), (∀ k, j ≤ k → k < j + r + 1 → func k = FetchOutcome.otherError (e k)) →
      retryAux func delay j (r + 1) =
        (Except.error (Exn.otherError (e (j + r))),
          (List.range' j r).map (fun i => delay * 2 ^ i)) := by
  intro r
  induction r with
  | zero =>
    intro j h
    have hj := h j (Nat.le_refl j) (by omega)
    rw [retryAux_succ, hj]
    simp
  | succ r ih =>
    intro j h
    have hj := h j (Nat.le_refl j) (by omega)
    have hrec := ih (j + 1) (fun k hk1 hk2 => h k (by omega) (by omega))
    rw [retryAux_succ, hj]
    simp only [Nat.succ_ne_zero, if_false, hrec, List.range'_succ, List.map_cons]
    rw [show j + 1 + r = j + (r + 1) from by omega]

/-- Helper: a run of non-`httpx` failures followed by an `httpx` status
error stops at the status error, re-raising it with no further sleep. -/
theorem retryAux_statusAt {α : Type} (func : Nat → FetchOutcome α) (delay : Int)
    (e : Nat → String) (s : String) :
    ∀ (d j r : Nat), d < r →
      (∀ k, j ≤ k → k < j + d → func k = FetchOutcome.otherError (e k)) →
      func (j + d) = FetchOutcome.statusError s →
      retryAux func delay j r =
        (Except.error (Exn.statusError s),
          (List.range' j d).map (fun i => delay * 2 ^ i)) := by
  intro d
  induction d with
  | zero =>
    intro j r hr h hs
    obtain ⟨r2, rfl⟩ : ∃ r2, r = r2 + 1 := ⟨r - 1, by omega⟩
    simp only [Nat.add_zero] at hs
    rw [retryAux_succ, hs]
    simp
  | succ d ih =>
    intro j r hr h hs
    obtain ⟨r2, rfl⟩ : ∃ r2, r = r2 + 1 := ⟨r - 1, by omega⟩
    have hj := h j (Nat.le_refl j) (by omega)
    have hrec := ih (j + 1) r2 (by omega)
      (fun k hk1 hk2 => h k (by omega) (by omega))
      (by simpa [show j + 1 + d = j + (d + 1) by omega] using hs)
    have hr2 : r2 ≠ 0 := by omega
    rw [retryAux_succ, hj]
    simp only [hr2, if_false, hrec, List.range'_succ, List.map_cons]

/-- Helper: a transport error is re-raised immediately by the first
(`except httpx.HTTPError`) clause, with no retry and no sleep. -/
theorem retryAux_transportAt {α : Type} (func : Nat → FetchOutcome α)
    (delay : Int) (s : String) (j r : Nat) (hr : 0 < r)
    (hs : func j = FetchOutcome.transportError s) :
    retryAux func delay j r = (Except.error (Exn.transportError s), []) := by
  obtain ⟨r2, rfl⟩ : ∃ r2, r = r2 + 1 := ⟨r - 1, by omega⟩
  rw [retryAux_succ, hs]

/-- Helper: `_retry_request` with `max_retries = 3` never falls off the end
of its loop, so the Python `None` return is unreachable at the call sites. -/
theorem retry_request_three_ne_none {α : Type} (func : Nat → FetchOutcome α)
    (delay : Int) : (retry_request func 3 delay).1 ≠ Except.ok none := by
  rcases h0 : func 0 <;> rcases h1 : func 1 <;> rcases h2 : func 2 <;>
    simp [retry_request, retryAux_succ, h0, h1, h2]

/-- C1: the claim says a transport-level failure (network/timeout, no
response obtained) is retried with exponential backoff and only a
protocol-level failure propagates un-retried.  The code's first handler,
`except httpx.HTTPError`, catches every `httpx` exception — and in `httpx`
the transport errors (`ConnectError`, `TimeoutException`, ...) are
subclasses of `httpx.HTTPError` — so a transport failure is re-raised on its
first occurrence with no retry and no sleep.  Concretely: an operation that
times out on attempt 1 and would succeed on attempts 2 and 3 propagates the
timeout immediately instead of returning the success value; and in general a
transport error on the first attempt propagates with an empty sleep list for
every `max_retries > 0`. -/
theorem retry_transport_not_retried :
    retry_request
        (fun k => if k = 0 then FetchOutcome.transportError "ConnectTimeout"
          else FetchOutcome.ok (42 : Nat)) 3 1 =
      (Except.error (Exn.transportError "ConnectTimeout"), []) ∧
    (∀ (α : Type) (func : Nat → FetchOutcome α) (s : String) (delay : Int)
        (m : Nat), 0 < m → func 0 = FetchOutcome.transportError s →
      retry_request func m delay = (Except.error (Exn.transportError s), [])) := by
  constructor
  · rfl
  · intro α func s delay m hm h0
    exact retryAux_transportAt func delay s 0 m hm h0

/-- Witness for `retry_transport_not_retried`: the general part applied to a
concrete always-timing-out operation. -/
theorem retry_transport_not_retried_witness :
    retry_request (fun _ => (FetchOutcome.transportError "timeout" : FetchOutcome Nat)) 3 1 =
      (Except.error (Exn.transportError "timeout"), []) :=
  retry_transport_not_retried.2 Nat (fun _ => FetchOutcome.transportError "timeout")
    "timeout" 1 3 (by decide) rfl

/-- C2: `run_git_remote_sync` restores the process working directory to its
pre-call value (`current_dir = os.getcwd()` recorded at entry) on every exit
path — success, handled failure, or unexpected error — because the `finally`
block unconditionally executes `os.chdir(current_dir)`. -/
theorem run_git_remote_sync_restores_cwd (env : GitEnv) (current_dir : String) :
    (run_git_remote_sync env current_dir).cwd = current_dir := rfl

/-- C3: after `set(k, v)` at time `t`, a `get(k)` at time `tq` returns `v`
when `tq - t < ttl` and is a miss (`None`) when `tq - t >= ttl`. -/
theorem cache_ttl_semantics (α : Type) (c : Cache α) (k : String) (v : α)
    (t tq ttl : Int) :
    (tq - t < ttl → get_from_cache (set_cache c t k v) tq ttl k = some v) ∧
    (ttl ≤ tq - t → get_from_cache (set_cache c t k v) tq ttl k = none) := by
  constructor
  · intro h
    simp [get_from_cache, is_cache_valid, set_cache, cacheLookup, h]
  · intro h
    have h2 : ¬(tq - t < ttl) := by omega
    simp [get_from_cache, is_cache_valid, set_cache, cacheLookup, h2]

/-- Witness for `cache_ttl_semantics` at `t = 0`, `ttl = 300`: a read at
time 100 hits, a read at time 300 misses. -/
theorem cache_ttl_semantics_witness :
    get_from_cache (set_cache ([] : Cache Nat) 0 "k" 7) 100 300 "k" = some 7 ∧
    get_from_cache (set_cache ([] : Cache Nat) 0 "k" 7) 300 300 "k" = none :=
  ⟨(cache_ttl_semantics Nat [] "k" 7 0 100 300).1 (by decide),
   (cache_ttl_semantics Nat [] "k" 7 0 300 300).2 (by decide)⟩

/-- C4: `clear_cache_for_prefix(p)` removes exactly the entries whose key
starts with `p`: afterwards a key starting with `p` is absent, and any other
key is still mapped to the same `(timestamp, value)` pair as before. -/
theorem clear_pfx_exact (α : Type) (c : Cache α) (p k : String) :
    cacheLookup (clear_cache_for_pfx c p) k =
      if startswith k p then none else cacheLookup c k := by
  induction c with
  | nil => simp [clear_cache_for_pfx, cacheLookup]
  | cons a tl ih =>
    simp only [clear_cache_for_pfx, List.filter_cons] at ih ⊢
    by_cases hs : startswith a.1 p = true
    · simp only [hs, Bool.not_true, Bool.false_eq_true, if_false]
      rw [ih]
      by_cases he : (a.1 == k) = true
      · have hk : a.1 = k := eq_of_beq he
        subst hk
        simp [hs]
      · simp [cacheLookup, he]
    · simp only [Bool.not_eq_true] at hs
      simp only [hs, Bool.not_false, if_true]
      by_cases he : (a.1 == k) = true
      · have hk : a.1 = k := eq_of_beq he
        subst hk
        simp [cacheLookup, hs]
      · simp [cacheLookup, he, ih]

/-- C9: `get_patches` with a missing (`None` or empty) `manufacturer` or
`device_name` returns `[]` immediately: for every cache state and every
fetch oracle the result is `[]` with the cache unchanged — no cache write
and no remote request. -/
theorem get_patches_missing_args (α : Type) (c : Cache (List α)) (now ttl : Int)
    (device_name community_folder manufacturer : Option String)
    (force_refresh : Bool) (fetch : Nat → FetchOutcome (List α))
    (h : pyTruthy manufacturer = false ∨ pyTruthy device_name = false) :
    get_patches c now ttl device_name community_folder manufacturer
      force_refresh fetch = Except.ok ([], c) := by
  rcases h with h | h <;> simp [get_patches, h]

/-- Witness for `get_patches_missing_args`: a `None` manufacturer with a
present device name. -/
theorem get_patches_missing_args_witness :
    get_patches ([] : Cache (List Nat)) 0 300 (some "JV-1080") none none false
      (fun _ => FetchOutcome.statusError "500") = Except.ok ([], []) :=
  get_patches_missing_args Nat [] 0 300 (some "JV-1080") none none false
    (fun _ => FetchOutcome.statusError "500") (Or.inl rfl)

/-- C10: whenever `run_git_sync` resolves with success the whole client
cache has been cleared (the cache is empty at the point of return), and
whenever it resolves with failure the cache is unchanged. -/
theorem run_git_sync_cache_effect (α : Type) (c : Cache α)
    (fetch : Nat → FetchOutcome GitSyncResp) :
    ((run_git_sync c fetch).1.1 = true → (run_git_sync c fetch).2 = []) ∧
    ((run_git_sync c fetch).1.1 = false → (run_git_sync c fetch).2 = c) := by
  rcases hr : (retry_request fetch 3 1).1 with e | o
  · simp [run_git_sync, hr]
  · rcases o with _ | r
    · simp [run_git_sync, hr]
    · by_cases hst : (r.status == some "success") = true <;>
        simp [run_git_sync, hr, hst, clear_cache]

/-- Witness for `run_git_sync_cache_effect`: a success response empties the
cache; an error-status response leaves it unchanged. -/
theorem run_git_sync_cache_effect_witness :
    (run_git_sync ([("k", (0, 5))] : Cache Nat)
      (fun _ => FetchOutcome.ok ⟨some "success", some "done"⟩)).2 = [] ∧
    (run_git_sync ([("k", (0, 5))] : Cache Nat)
      (fun _ => FetchOutcome.ok ⟨some "error", some "bad"⟩)).2 = [("k", (0, 5))] :=
  ⟨(run_git_sync_cache_effect Nat [("k", (0, 5))]
      (fun _ => FetchOutcome.ok ⟨some "success", some "done"⟩)).1 rfl,
   (run_git_sync_cache_effect Nat [("k", (0, 5))]
      (fun _ => FetchOutcome.ok ⟨some "error", some "bad"⟩)).2 rfl⟩

/-- Helper: a concatenation with a non-empty left part is non-empty. -/
theorem str_append_ne_left (a b : String) (h : a ≠ "") : a ++ b ≠ "" := by
  intro hab
  apply h
  apply String.ext
  have h2 := congrArg String.data hab
  rw [String.data_append] at h2
  rcases List.append_eq_nil.mp h2 with ⟨ha, _⟩
  simp [ha]

/-- Helper: a concatenation with a non-empty right part is non-empty. -/
theorem str_append_ne_right (a b : String) (h : b ≠ "") : a ++ b ≠ "" := by
  intro hab
  apply h
  apply String.ext
  have h2 := congrArg String.data hab
  rw [String.data_append] at h2
  rcases List.append_eq_nil.mp h2 with ⟨_, hb⟩
  simp [hb]

/-- C5 counterexample: on a clean tree (empty `git status --porcelain`
output) `run_git_remote_sync` does return success and skips commit and
push, but its message is `"No changes to commit in midi-presets"`, not the
pair `(true, "no changes to commit")` stated by the claim. -/
theorem no_changes_message_counterexample :
    (run_git_remote_sync
        ⟨true, GitOut.ok "", GitOut.ok "", true, true, true, true,
          GitOut.ok "", GitOut.ok "", GitOut.ok "", GitOut.ok "",
          GitOut.ok "", GitOut.ok ""⟩ "/repo").result ≠
      (true, "no changes to commit") ∧
    (run_git_remote_sync
        ⟨true, GitOut.ok "", GitOut.ok "", true, true, true, true,
          GitOut.ok "", GitOut.ok "", GitOut.ok "", GitOut.ok "",
          GitOut.ok "", GitOut.ok ""⟩ "/repo").result =
      (true, "No changes to commit in midi-presets") ∧
    (run_git_remote_sync
        ⟨true, GitOut.ok "", GitOut.ok "", true, true, true, true,
          GitOut.ok "", GitOut.ok "", GitOut.ok "", GitOut.ok "",
          GitOut.ok "", GitOut.ok ""⟩ "/repo").commitInvoked = false ∧
    (run_git_remote_sync
        ⟨true, GitOut.ok "", GitOut.ok "", true, true, true, true,
          GitOut.ok "", GitOut.ok "", GitOut.ok "", GitOut.ok "",
          GitOut.ok "", GitOut.ok ""⟩ "/repo").pushInvoked = false :=
  ⟨by decide, rfl, rfl, rfl⟩

/-- C5 (amended): when, after staging, `git status --porcelain` output is
empty (all whitespace), `run_git_remote_sync` returns
`(true, "No changes to commit in midi-presets")` — success with a
no-changes message — and invokes neither the commit step nor the push
step. -/
theorem no_changes_skips_commit_push (env : GitEnv) (d : String)
    (o1 o2 o3 o4 st : String)
    (h1 : env.parentRepoValid = true) (h2 : env.submoduleSync = GitOut.ok o1)
    (h3 : env.submoduleUpdate = GitOut.ok o2) (h4 : env.presetsExists = true)
    (h5 : env.presetsIsDir = true) (h6 : env.presetsReadable = true)
    (h7 : env.submoduleRepoValid = true) (h8 : env.preStatus = GitOut.ok o3)
    (h9 : env.addAll = GitOut.ok o4) (h10 : env.statusPorcelain = GitOut.ok st)
    (h11 : stripEmpty st = true) :
    (run_git_remote_sync env d).result =
      (true, "No changes to commit in midi-presets") ∧
    (run_git_remote_sync env d).commitInvoked = false ∧
    (run_git_remote_sync env d).pushInvoked = false := by
  simp [run_git_remote_sync, run_git_remote_sync_body, h1, h2, h3, h4, h5, h6,
    h7, h8, h9, h10, h11]

/-- Witness for `no_changes_skips_commit_push`: a whitespace-only porcelain
status output. -/
theorem no_changes_skips_commit_push_witness :
    (run_git_remote_sync
        ⟨true, GitOut.ok "", GitOut.ok "", true, true, true, true,
          GitOut.ok "", GitOut.ok "", GitOut.ok " \n", GitOut.ok "",
          GitOut.ok "", GitOut.ok ""⟩ "/work").result =
      (true, "No changes to commit in midi-presets") ∧
    (run_git_remote_sync
        ⟨true, GitOut.ok "", GitOut.ok "", true, true, true, true,
          GitOut.ok "", GitOut.ok "", GitOut.ok " \n", GitOut.ok "",
          GitOut.ok "", GitOut.ok ""⟩ "/work").commitInvoked = false ∧
    (run_git_remote_sync
        ⟨true, GitOut.ok "", GitOut.ok "", true, true, true, true,
          GitOut.ok "", GitOut.ok "", GitOut.ok " \n", GitOut.ok "",
          GitOut.ok "", GitOut.ok ""⟩ "/work").pushInvoked = false :=
  no_changes_skips_commit_push
    ⟨true, GitOut.ok "", GitOut.ok "", true, true, true, true,
      GitOut.ok "", GitOut.ok "", GitOut.ok " \n", GitOut.ok "",
      GitOut.ok "", GitOut.ok ""⟩ "/work" "" "" "" "" " \n"
    rfl rfl rfl rfl rfl rfl rfl rfl rfl rfl (by decide)

/-- Whether a git operation outcome is a raised exception (either a
`GitCommandError` or any other exception) rather than normal output. -/
def GitOut.isFailure : GitOut → Bool
  | .ok _ => false
  | .cmdError _ => true
  | .exn _ => true

/-- C6: every failure of `run_git_remote_sync` is surfaced as
`(false, message)` rather than an exception — the model is a total function
because the outer and inner `except GitCommandError` / `except Exception`
handlers together cover every modelled exception — and the message is never
empty (human-readable).  The exact-message conjuncts spell out each failure
class in source order: parent directory not a repository; `git submodule
sync` failing (captured stderr) or raising an unexpected error;
`git submodule update` failing or raising; the target directory missing;
the target path not a directory; permission denied on the target directory;
the submodule not a git repository; an unexpected error from an inner
command (`git add .`); `git commit`, `git push` or the parent `git add`
failing with captured stderr.  The final conjunct closes the quantifier
"for every failure encountered": whenever any check fails or any git
command on the executed path fails or raises — including commit, push and
the parent add, which are only executed when the porcelain status is
non-empty — the returned success flag is `false`. -/
theorem run_git_remote_sync_failure_contract (env : GitEnv) (d : String) :
    (run_git_remote_sync env d).result.2 ≠ "" ∧
    (env.parentRepoValid = false →
      (run_git_remote_sync env d).result =
        (false, "Not a valid git repository: " ++ d)) ∧
    (∀ s, env.parentRepoValid = true → env.submoduleSync = GitOut.cmdError s →
      (run_git_remote_sync env d).result =
        (false, "Git submodule operation failed: " ++ s)) ∧
    (∀ m, env.parentRepoValid = true → env.submoduleSync = GitOut.exn m →
      (run_git_remote_sync env d).result =
        (false, "Unexpected error in run_git_remote_sync: " ++ m)) ∧
    (∀ o1 s, env.parentRepoValid = true → env.submoduleSync = GitOut.ok o1 →
      env.submoduleUpdate = GitOut.cmdError s →
      (run_git_remote_sync env d).result =
        (false, "Git submodule operation failed: " ++ s)) ∧
    (∀ o1 m, env.parentRepoValid = true → env.submoduleSync = GitOut.ok o1 →
      env.submoduleUpdate = GitOut.exn m →
      (run_git_remote_sync env d).result =
        (false, "Unexpected error in run_git_remote_sync: " ++ m)) ∧
    (∀ o1 o2, env.parentRepoValid = true → env.submoduleSync = GitOut.ok o1 →
      env.submoduleUpdate = GitOut.ok o2 → env.presetsExists = false →
      (run_git_remote_sync env d).result =
        (false, "Midi-presets directory not found at " ++ (d ++ "/midi-presets") ++
          " even after submodule initialization")) ∧
    (∀ o1 o2, env.parentRepoValid = true → env.submoduleSync = GitOut.ok o1 →
      env.submoduleUpdate = GitOut.ok o2 → env.presetsExists = true →
      env.presetsIsDir = false →
      (run_git_remote_sync env d).result =
        (false, "Path exists but is not a directory: " ++ (d ++ "/midi-presets"))) ∧
    (∀ o1 o2, env.parentRepoValid = true → env.submoduleSync = GitOut.ok o1 →
      env.submoduleUpdate = GitOut.ok o2 → env.presetsExists = true →
      env.presetsIsDir = true → env.presetsReadable = false →
      (run_git_remote_sync env d).result =
        (false, "Permission denied when accessing directory: " ++
          (d ++ "/midi-presets"))) ∧
    (∀ o1 o2, env.parentRepoValid = true → env.submoduleSync = GitOut.ok o1 →
      env.submoduleUpdate = GitOut.ok o2 → env.presetsExists = true →
      env.presetsIsDir = true → env.presetsReadable = true →
      env.submoduleRepoValid = false →
      (run_git_remote_sync env d).result =
        (false, "Not a git repository: " ++ (d ++ "/midi-presets"))) ∧
    (∀ o1 o2 o3 m, env.parentRepoValid = true →
      env.submoduleSync = GitOut.ok o1 → env.submoduleUpdate = GitOut.ok o2 →
      env.presetsExists = true → env.presetsIsDir = true →
      env.presetsReadable = true → env.submoduleRepoValid = true →
      env.preStatus = GitOut.ok o3 → env.addAll = GitOut.exn m →
      (run_git_remote_sync env d).result =
        (false, "Error running git remote sync: " ++ m)) ∧
    (∀ o1 o2 o3 o4 st s, env.parentRepoValid = true →
      env.submoduleSync = GitOut.ok o1 → env.submoduleUpdate = GitOut.ok o2 →
      env.presetsExists = true → env.presetsIsDir = true →
      env.presetsReadable = true → env.submoduleRepoValid = true →
      env.preStatus = GitOut.ok o3 → env.addAll = GitOut.ok o4 →
      env.statusPorcelain = GitOut.ok st → stripEmpty st = false →
      env.commitOut = GitOut.cmdError s →
      (run_git_remote_sync env d).result =
        (false, "Git remote sync failed: " ++ s)) ∧
    (∀ o1 o2 o3 o4 st o5 s, env.parentRepoValid = true →
      env.submoduleSync = GitOut.ok o1 → env.submoduleUpdate = GitOut.ok o2 →
      env.presetsExists = true → env.presetsIsDir = true →
      env.presetsReadable = true → env.submoduleRepoValid = true →
      env.preStatus = GitOut.ok o3 → env.addAll = GitOut.ok o4 →
      env.statusPorcelain = GitOut.ok st → stripEmpty st = false →
      env.commitOut = GitOut.ok o5 → env.pushOut = GitOut.cmdError s →
      (run_git_remote_sync env d).result =
        (false, "Git remote sync failed: " ++ s)) ∧
    (∀ o1 o2 o3 o4 st o5 o6 s, env.parentRepoValid = true →
      env.submoduleSync = GitOut.ok o1 → env.submoduleUpdate = GitOut.ok o2 →
      env.presetsExists = true → env.presetsIsDir = true →
      env.presetsReadable = true → env.submoduleRepoValid = true →
      env.preStatus = GitOut.ok o3 → env.addAll = GitOut.ok o4 →
      env.statusPorcelain = GitOut.ok st → stripEmpty st = false →
      env.commitOut = GitOut.ok o5 → env.pushOut = GitOut.ok o6 →
      env.parentAdd = GitOut.cmdError s →
      (run_git_remote_sync env d).result =
        (false, "Git remote sync failed: " ++ s)) ∧
    ((env.parentRepoValid = false ∨
      env.submoduleSync.isFailure = true ∨
      env.submoduleUpdate.isFailure = true ∨
      env.presetsExists = false ∨
      env.presetsIsDir = false ∨
      env.presetsReadable = false ∨
      env.submoduleRepoValid = false ∨
      env.preStatus.isFailure = true ∨
      env.addAll.isFailure = true ∨
      env.statusPorcelain.isFailure = true ∨
      (∃ st, env.statusPorcelain = GitOut.ok st ∧ stripEmpty st = false ∧
        (env.commitOut.isFailure = true ∨ env.pushOut.isFailure = true ∨
          env.parentAdd.isFailure = true))) →
      (run_git_remote_sync env d).result.1 = false) := by
  refine ⟨?_, ?_, ?_, ?_, ?_, ?_, ?_, ?_, ?_, ?_, ?_, ?_, ?_, ?_, ?_⟩
  · show (run_git_remote_sync_body env d).result.2 ≠ ""
    unfold run_git_remote_sync_body
    repeat' split
    all_goals dsimp only
    all_goals first
      | exact str_append_ne_left _ _ (by decide)
      | exact str_append_ne_right _ _ (by decide)
      | decide
  · intro h
    simp [run_git_remote_sync, run_git_remote_sync_body, h]
  · intro s h1 h2
    simp [run_git_remote_sync, run_git_remote_sync_body, h1, h2]
  · intro m h1 h2
    simp [run_git_remote_sync, run_git_remote_sync_body, h1, h2]
  · intro o1 s h1 h2 h3
    simp [run_git_remote_sync, run_git_remote_sync_body, h1, h2, h3]
  · intro o1 m h1 h2 h3
    simp [run_git_remote_sync, run_git_remote_sync_body, h1, h2, h3]
  · intro o1 o2 h1 h2 h3 h4
    simp [run_git_remote_sync, run_git_remote_sync_body, h1, h2, h3, h4]
  · intro o1 o2 h1 h2 h3 h4 h5
    simp [run_git_remote_sync, run_git_remote_sync_body, h1, h2, h3, h4, h5]
  · intro o1 o2 h1 h2 h3 h4 h5 h6
    simp [run_git_remote_sync, run_git_remote_sync_body, h1, h2, h3, h4, h5, h6]
  · intro o1 o2 h1 h2 h3 h4 h5 h6 h7
    simp [run_git_remote_sync, run_git_remote_sync_body, h1, h2, h3, h4, h5,
      h6, h7]
  · intro o1 o2 o3 m h1 h2 h3 h4 h5 h6 h7 h8 h9
    simp [run_git_remote_sync, run_git_remote_sync_body, h1, h2, h3, h4, h5,
      h6, h7, h8, h9]
  · intro o1 o2 o3 o4 st s h1 h2 h3 h4 h5 h6 h7 h8 h9 h10 h11 h12
    simp [run_git_remote_sync, run_git_remote_sync_body, h1, h2, h3, h4, h5,
      h6, h7, h8, h9, h10, h11, h12]
  · intro o1 o2 o3 o4 st o5 s h1 h2 h3 h4 h5 h6 h7 h8 h9 h10 h11 h12 h13
    simp [run_git_remote_sync, run_git_remote_sync_body, h1, h2, h3, h4, h5,
      h6, h7, h8, h9, h10, h11, h12, h13]
  · intro o1 o2 o3 o4 st o5 o6 s h1 h2 h3 h4 h5 h6 h7 h8 h9 h10 h11 h12 h13 h14
    simp [run_git_remote_sync, run_git_remote_sync_body, h1, h2, h3, h4, h5,
      h6, h7, h8, h9, h10, h11, h12, h13, h14]
  · intro h
    show (run_git_remote_sync_body env d).result.1 = false
    unfold run_git_remote_sync_body
    repeat' split
    all_goals dsimp only
    all_goals
      rcases h with h | h | h | h | h | h | h | h | h | h | h <;>
        simp_all [GitOut.isFailure]

/-- Witness for `run_git_remote_sync_failure_contract`: an invalid parent
repository, a failing submodule command, and — for the coverage conjunct —
a push that fails mid-sequence, each at a concrete environment. -/
theorem run_git_remote_sync_failure_contract_witness :
    (run_git_remote_sync
        ⟨false, GitOut.ok "", GitOut.ok "", true, true, true, true,
          GitOut.ok "", GitOut.ok "", GitOut.ok "", GitOut.ok "",
          GitOut.ok "", GitOut.ok ""⟩ "/r").result =
      (false, "Not a valid git repository: " ++ "/r") ∧
    (run_git_remote_sync
        ⟨true, GitOut.cmdError "fatal: no such remote", GitOut.ok "", true,
          true, true, true, GitOut.ok "", GitOut.ok "", GitOut.ok "",
          GitOut.ok "", GitOut.ok "", GitOut.ok ""⟩ "/r").result =
      (false, "Git submodule operation failed: " ++ "fatal: no such remote") ∧
    (run_git_remote_sync
        ⟨true, GitOut.ok "", GitOut.ok "", true, true, true, true,
          GitOut.ok "", GitOut.ok "", GitOut.ok "M a.json", GitOut.ok "",
          GitOut.cmdError "rejected", GitOut.ok ""⟩ "/r").result.1 = false :=
  ⟨(run_git_remote_sync_failure_contract
      ⟨false, GitOut.ok "", GitOut.ok "", true, true, true, true,
        GitOut.ok "", GitOut.ok "", GitOut.ok "", GitOut.ok "",
        GitOut.ok "", GitOut.ok ""⟩ "/r").2.1 rfl,
   (run_git_remote_sync_failure_contract
      ⟨true, GitOut.cmdError "fatal: no such remote", GitOut.ok "", true,
        true, true, true, GitOut.ok "", GitOut.ok "", GitOut.ok "",
        GitOut.ok "", GitOut.ok "", GitOut.ok ""⟩ "/r").2.2.1
      "fatal: no such remote" rfl rfl,
   (run_git_remote_sync_failure_contract
      ⟨true, GitOut.ok "", GitOut.ok "", true, true, true, true,
        GitOut.ok "", GitOut.ok "", GitOut.ok "M a.json", GitOut.ok "",
        GitOut.cmdError "rejected", GitOut.ok ""⟩
      "/r").2.2.2.2.2.2.2.2.2.2.2.2.2.2
      (Or.inr (Or.inr (Or.inr (Or.inr (Or.inr (Or.inr (Or.inr (Or.inr
        (Or.inr (Or.inr ⟨"M a.json", rfl, by decide,
          Or.inr (Or.inl rfl)⟩))))))))))⟩

/-- C7 counterexample: with synchronization administratively disabled the
pull operation returns `(false, "Sync is disabled")` — its success flag is
`false`, i.e. it does indicate failure, contrary to the claim's "non-error
result". -/
theorem sync_disabled_counterexample :
    DeviceManager.run_git_sync false (true, "Success", none) =
      (false, "Sync is disabled") ∧
    (DeviceManager.run_git_sync false (true, "Success", none)).1 ≠ true :=
  ⟨rfl, by decide⟩

/-- C7 (amended): with `sync_enabled = false` the pull operation returns
immediately with `(false, "Sync is disabled")`, for every outcome the
underlying git-sync operation would have had: the message marks the policy
outcome, but the success flag is `false`. -/
theorem sync_disabled_returns_false (g : Bool × String × Option String) :
    DeviceManager.run_git_sync false g = (false, "Sync is disabled") := rfl

/-- Helper: with `force_refresh = true`, a protocol (`raise_for_status`)
rejection on the first attempt makes `cached_query` return the wrapper's
safe default with the cache untouched. -/
theorem cached_query_status_default {α : Type} (c : Cache α) (now ttl : Int)
    (key : String) (dflt : α) (e : String) (fetch : Nat → FetchOutcome α)
    (h : fetch 0 = FetchOutcome.statusError e) :
    cached_query c now ttl true key dflt fetch = Except.ok (dflt, c) := by
  have hr := retryAux_statusAt fetch 1 (fun _ => "") e 0 0 3 (by decide)
    (fun k hk1 hk2 => absurd hk2 (by omega)) (by simpa using h)
  simp [cached_query, query_fetch, retry_request, hr, Exn.isHttpError]

/-- Helper: with `force_refresh = true`, non-`httpx` failures on all three
attempts exhaust the retries and the last exception propagates out of
`cached_query`. -/
theorem cached_query_other_propagates {α : Type} (c : Cache α) (now ttl : Int)
    (key : String) (dflt : α) (msgs : Nat → String)
    (fetch : Nat → FetchOutcome α) (h : ∀ k, fetch k = FetchOutcome.otherError (msgs k)) :
    cached_query c now ttl true key dflt fetch =
      Except.error (Exn.otherError (msgs 2)) := by
  have hr := retryAux_allOther fetch 1 msgs 2 0 (fun k hk1 hk2 => h k)
  simp [cached_query, query_fetch, retry_request, hr, Exn.isHttpError]

/-- C8 counterexample: the claim says every read-query wrapper returns the
empty default on ultimate failure.  But (a) `get_collections` returns the
non-empty list `["default"]` on an `httpx.HTTPError`, and (b) a non-`httpx`
failure that exhausts the retries is not caught by any wrapper's
`except httpx.HTTPError` clause, so `get_manufacturers` propagates it
instead of returning a default. -/
theorem wrappers_default_counterexample :
    get_collections ([] : Cache (List String)) 0 300 "Roland" "JV-1080" true
        (fun _ => FetchOutcome.statusError "500 Server Error") =
      Except.ok (["default"], []) ∧
    (["default"] : List String) ≠ [] ∧
    get_manufacturers ([] : Cache (List String)) 0 300 true
        (fun _ => FetchOutcome.otherError "Expecting value") =
      Except.error (Exn.otherError "Expecting value") :=
  ⟨rfl, by decide, rfl⟩

/-- C8 (amended): if the remote call fails with an `httpx` protocol error
(a rejected response), each read-query wrapper catches it and returns its
safe default — the empty list for `get_manufacturers`,
`get_devices_by_manufacturer`, `get_device_info`, `get_community_folders`
and `get_patches`, the map `{"in": [], "out": []}` for `get_midi_ports`,
and the non-empty list `["default"]` for `get_collections` — with the cache
unchanged; a non-`httpx` failure that exhausts the retry sequence is not
caught and propagates to the caller. -/
theorem wrappers_failure_defaults :
    (∀ (c : Cache (List String)) (now ttl : Int) (e : String)
        (fetch : Nat → FetchOutcome (List String)),
      fetch 0 = FetchOutcome.statusError e →
      get_manufacturers c now ttl true fetch = Except.ok ([], c)) ∧
    (∀ (c : Cache (List String)) (now ttl : Int) (msgs : Nat → String)
        (fetch : Nat → FetchOutcome (List String)),
      (∀ k, fetch k = FetchOutcome.otherError (msgs k)) →
      get_manufacturers c now ttl true fetch =
        Except.error (Exn.otherError (msgs 2))) ∧
    (∀ (c : Cache (List String)) (now ttl : Int) (ma e : String)
        (fetch : Nat → FetchOutcome (List String)),
      fetch 0 = FetchOutcome.statusError e →
      get_devices_by_manufacturer c now ttl ma true fetch = Except.ok ([], c)) ∧
    (∀ (c : Cache (List String)) (now ttl : Int) (ma : String)
        (msgs : Nat → String) (fetch : Nat → FetchOutcome (List String)),
      (∀ k, fetch k = FetchOutcome.otherError (msgs k)) →
      get_devices_by_manufacturer c now ttl ma true fetch =
        Except.error (Exn.otherError (msgs 2))) ∧
    (∀ (α : Type) (c : Cache (List α)) (now ttl : Int) (ma e : String)
        (fetch : Nat → FetchOutcome (List α)),
      fetch 0 = FetchOutcome.statusError e →
      get_device_info c now ttl ma true fetch = Except.ok ([], c)) ∧
    (∀ (α : Type) (c : Cache (List α)) (now ttl : Int) (ma : String)
        (msgs : Nat → String) (fetch : Nat → FetchOutcome (List α)),
      (∀ k, fetch k = FetchOutcome.otherError (msgs k)) →
      get_device_info c now ttl ma true fetch =
        Except.error (Exn.otherError (msgs 2))) ∧
    (∀ (c : Cache (List String)) (now ttl : Int) (de e : String)
        (fetch : Nat → FetchOutcome (List String)),
      fetch 0 = FetchOutcome.statusError e →
      get_community_folders c now ttl de true fetch = Except.ok ([], c)) ∧
    (∀ (c : Cache (List String)) (now ttl : Int) (de : String)
        (msgs : Nat → String) (fetch : Nat → FetchOutcome (List String)),
      (∀ k, fetch k = FetchOutcome.otherError (msgs k)) →
      get_community_folders c now ttl de true fetch =
        Except.error (Exn.otherError (msgs 2))) ∧
    (∀ (α : Type) (c : Cache (List α)) (now ttl : Int) (ma de e : String)
        (cf : Option String) (fetch : Nat → FetchOutcome (List α)),
      (ma == "") = false → (de == "") = false →
      fetch 0 = FetchOutcome.statusError e →
      get_patches c now ttl (some de) cf (some ma) true fetch =
        Except.ok ([], c)) ∧
    (∀ (α : Type) (c : Cache (List α)) (now ttl : Int) (ma de : String)
        (cf : Option String) (msgs : Nat → String)
        (fetch : Nat → FetchOutcome (List α)),
      (ma == "") = false → (de == "") = false →
      (∀ k, fetch k = FetchOutcome.otherError (msgs k)) →
      get_patches c now ttl (some de) cf (some ma) true fetch =
        Except.error (Exn.otherError (msgs 2))) ∧
    (∀ (c : Cache (List (String × List String))) (now ttl : Int) (e : String)
        (fetch : Nat → FetchOutcome (List (String × List String))),
      fetch 0 = FetchOutcome.statusError e →
      get_midi_ports c now ttl true fetch =
        Except.ok ([("in", []), ("out", [])], c)) ∧
    (∀ (c : Cache (List (String × List String))) (now ttl : Int)
        (msgs : Nat → String)
        (fetch : Nat → FetchOutcome (List (String × List String))),
      (∀ k, fetch k = FetchOutcome.otherError (msgs k)) →
      get_midi_ports c now ttl true fetch =
        Except.error (Exn.otherError (msgs 2))) ∧
    (∀ (c : Cache (List String)) (now ttl : Int) (ma de e : String)
        (fetch : Nat → FetchOutcome (List String)),
      fetch 0 = FetchOutcome.statusError e →
      get_collections c now ttl ma de true fetch =
        Except.ok (["default"], c)) ∧
    (∀ (c : Cache (List String)) (now ttl : Int) (ma de : String)
        (msgs : Nat → String) (fetch : Nat → FetchOutcome (List String)),
      (∀ k, fetch k = FetchOutcome.otherError (msgs k)) →
      get_collections c now ttl ma de true fetch =
        Except.error (Exn.otherError (msgs 2))) := by
  refine ⟨?_, ?_, ?_, ?_, ?_, ?_, ?_, ?_, ?_, ?_, ?_, ?_, ?_, ?_⟩
  · intro c now ttl e fetch h
    exact cached_query_status_default c now ttl "manufacturers" [] e fetch h
  · intro c now ttl msgs fetch h
    exact cached_query_other_propagates c now ttl "manufacturers" [] msgs fetch h
  · intro c now ttl ma e fetch h
    exact cached_query_status_default c now ttl
      ("devices_by_manufacturer_" ++ ma) [] e fetch h
  · intro c now ttl ma msgs fetch h
    exact cached_query_other_propagates c now ttl
      ("devices_by_manufacturer_" ++ ma) [] msgs fetch h
  · intro α c now ttl ma e fetch h
    exact cached_query_status_default c now ttl ("device_info_" ++ ma) []
      e fetch h
  · intro α c now ttl ma msgs fetch h
    exact cached_query_other_propagates c now ttl ("device_info_" ++ ma) []
      msgs fetch h
  · intro c now ttl de e fetch h
    exact cached_query_status_default c now ttl ("community_folders_" ++ de)
      [] e fetch h
  · intro c now ttl de msgs fetch h
    exact cached_query_other_propagates c now ttl ("community_folders_" ++ de)
      [] msgs fetch h
  · intro α c now ttl ma de e cf fetch hma hde h
    have hcond : (pyTruthy (some ma) && pyTruthy (some de)) = true := by
      simp [pyTruthy, hma, hde]
    simp only [get_patches, hcond, Bool.true_eq_false, if_false]
    exact cached_query_status_default c now ttl
      ("patches_" ++ optStr (some ma) ++ "_" ++ optStr (some de) ++ "_" ++
        orDefaultStr cf) [] e fetch h
  · intro α c now ttl ma de cf msgs fetch hma hde h
    have hcond : (pyTruthy (some ma) && pyTruthy (some de)) = true := by
      simp [pyTruthy, hma, hde]
    simp only [get_patches, hcond, Bool.true_eq_false, if_false]
    exact cached_query_other_propagates c now ttl
      ("patches_" ++ optStr (some ma) ++ "_" ++ optStr (some de) ++ "_" ++
        orDefaultStr cf) [] msgs fetch h
  · intro c now ttl e fetch h
    exact cached_query_status_default c now ttl "midi_ports"
      [("in", []), ("out", [])] e fetch h
  · intro c now ttl msgs fetch h
    exact cached_query_other_propagates c now ttl "midi_ports"
      [("in", []), ("out", [])] msgs fetch h
  · intro c now ttl ma de e fetch h
    exact cached_query_status_default c now ttl
      ("collections_" ++ ma ++ "_" ++ de) ["default"] e fetch h
  · intro c now ttl ma de msgs fetch h
    exact cached_query_other_propagates c now ttl
      ("collections_" ++ ma ++ "_" ++ de) ["default"] msgs fetch h

/-- Witness for `wrappers_failure_defaults`: every conjunct applied at a
concrete cache, clock and fetch oracle. -/
theorem wrappers_failure_defaults_witness :
    get_manufacturers ([] : Cache (List String)) 0 300 true
        (fun _ => FetchOutcome.statusError "404") = Except.ok ([], []) ∧
    get_manufacturers ([] : Cache (List String)) 0 300 true
        (fun _ => FetchOutcome.otherError "bad json") =
      Except.error (Exn.otherError "bad json") ∧
    get_devices_by_manufacturer ([] : Cache (List String)) 0 300 "Roland" true
        (fun _ => FetchOutcome.statusError "404") = Except.ok ([], []) ∧
    get_devices_by_manufacturer ([] : Cache (List String)) 0 300 "Roland" true
        (fun _ => FetchOutcome.otherError "bad json") =
      Except.error (Exn.otherError "bad json") ∧
    get_device_info ([] : Cache (List Nat)) 0 300 "Roland" true
        (fun _ => FetchOutcome.statusError "404") = Except.ok ([], []) ∧
    get_device_info ([] : Cache (List Nat)) 0 300 "Roland" true
        (fun _ => FetchOutcome.otherError "bad json") =
      Except.error (Exn.otherError "bad json") ∧
    get_community_folders ([] : Cache (List String)) 0 300 "JV-1080" true
        (fun _ => FetchOutcome.statusError "404") = Except.ok ([], []) ∧
    get_community_folders ([] : Cache (List String)) 0 300 "JV-1080" true
        (fun _ => FetchOutcome.otherError "bad json") =
      Except.error (Exn.otherError "bad json") ∧
    get_patches ([] : Cache (List Nat)) 0 300 (some "JV-1080") none
        (some "Roland") true (fun _ => FetchOutcome.statusError "404") =
      Except.ok ([], []) ∧
    get_patches ([] : Cache (List Nat)) 0 300 (some "JV-1080") none
        (some "Roland") true (fun _ => FetchOutcome.otherError "bad json") =
      Except.error (Exn.otherError "bad json") ∧
    get_midi_ports ([] : Cache (List (String × List String))) 0 300 true
        (fun _ => FetchOutcome.statusError "404") =
      Except.ok ([("in", []), ("out", [])], []) ∧
    get_midi_ports ([] : Cache (List (String × List String))) 0 300 true
        (fun _ => FetchOutcome.otherError "bad json") =
      Except.error (Exn.otherError "bad json") ∧
    get_collections ([] : Cache (List String)) 0 300 "Roland" "JV-1080" true
        (fun _ => FetchOutcome.statusError "404") =
      Except.ok (["default"], []) ∧
    get_collections ([] : Cache (List String)) 0 300 "Roland" "JV-1080" true
        (fun _ => FetchOutcome.otherError "bad json") =
      Except.error (Exn.otherError "bad json") :=
  ⟨wrappers_failure_defaults.1 [] 0 300 "404" _ rfl,
   wrappers_failure_defaults.2.1 [] 0 300 (fun _ => "bad json") _ (fun _ => rfl),
   wrappers_failure_defaults.2.2.1 [] 0 300 "Roland" "404" _ rfl,
   wrappers_failure_defaults.2.2.2.1 [] 0 300 "Roland" (fun _ => "bad json") _
     (fun _ => rfl),
   wrappers_failure_defaults.2.2.2.2.1 Nat [] 0 300 "Roland" "404" _ rfl,
   wrappers_failure_defaults.2.2.2.2.2.1 Nat [] 0 300 "Roland"
     (fun _ => "bad json") _ (fun _ => rfl),
   wrappers_failure_defaults.2.2.2.2.2.2.1 [] 0 300 "JV-1080" "404" _ rfl,
   wrappers_failure_defaults.2.2.2.2.2.2.2.1 [] 0 300 "JV-1080"
     (fun _ => "bad json") _ (fun _ => rfl),
   wrappers_failure_defaults.2.2.2.2.2.2.2.2.1 Nat [] 0 300 "Roland" "JV-1080"
     "404" none _ rfl rfl rfl,
   wrappers_failure_defaults.2.2.2.2.2.2.2.2.2.1 Nat [] 0 300 "Roland"
     "JV-1080" none (fun _ => "bad json") _ rfl rfl (fun _ => rfl),
   wrappers_failure_defaults.2.2.2.2.2.2.2.2.2.2.1 [] 0 300 "404" _ rfl,
   wrappers_failure_defaults.2.2.2.2.2.2.2.2.2.2.2.1 [] 0 300
     (fun _ => "bad json") _ (fun _ => rfl),
   wrappers_failure_defaults.2.2.2.2.2.2.2.2.2.2.2.2.1 [] 0 300 "Roland"
     "JV-1080" "404" _ rfl,
   wrappers_failure_defaults.2.2.2.2.2.2.2.2.2.2.2.2.2 [] 0 300 "Roland"
     "JV-1080" (fun _ => "bad json") _ (fun _ => rfl)⟩

/-- Witness for `run_git_remote_sync_restores_cwd` at a concrete environment
whose submodule push fails mid-sequence. -/
theorem run_git_remote_sync_restores_cwd_witness :
    (run_git_remote_sync
        ⟨true, GitOut.ok "", GitOut.ok "", true, true, true, true,
          GitOut.ok "", GitOut.ok "", GitOut.ok "M a.json", GitOut.ok "",
          GitOut.cmdError "rejected", GitOut.ok ""⟩ "/repo").cwd = "/repo" :=
  run_git_remote_sync_restores_cwd
    ⟨true, GitOut.ok "", GitOut.ok "", true, true, true, true,
      GitOut.ok "", GitOut.ok "", GitOut.ok "M a.json", GitOut.ok "",
      GitOut.cmdError "rejected", GitOut.ok ""⟩ "/repo"

/-- Witness for `clear_pfx_exact` on a three-entry cache: the matching keys
vanish, the non-matching key keeps its pair. -/
theorem clear_pfx_exact_witness :
    cacheLookup (clear_cache_for_pfx
        ([("patches_A_B_default", (5, 1)), ("patches_A_B_x", (6, 2)),
          ("patches_A_C_default", (7, 3))] : Cache Nat) "patches_A_B")
      "patches_A_B_x" = none ∧
    cacheLookup (clear_cache_for_pfx
        ([("patches_A_B_default", (5, 1)), ("patches_A_B_x", (6, 2)),
          ("patches_A_C_default", (7, 3))] : Cache Nat) "patches_A_B")
      "patches_A_C_default" = some (7, 3) :=
  ⟨by
    rw [clear_pfx_exact Nat
      [("patches_A_B_default", (5, 1)), ("patches_A_B_x", (6, 2)),
        ("patches_A_C_default", (7, 3))] "patches_A_B" "patches_A_B_x"]
    decide,
   by
    rw [clear_pfx_exact Nat
      [("patches_A_B_default", (5, 1)), ("patches_A_B_x", (6, 2)),
        ("patches_A_C_default", (7, 3))] "patches_A_B" "patches_A_C_default"]
    decide⟩

/-- Witness for `sync_disabled_returns_false` at a concrete git-sync
outcome. -/
theorem sync_disabled_returns_false_witness :
    DeviceManager.run_git_sync false (true, "pulled", none) =
      (false, "Sync is disabled") :=
  sync_disabled_returns_false (true, "pulled", none)
